import Mathlib

/-!
Verification of the task-management backend core: a shallow embedding of
the password/JWT security module (`app/core/security.py`), the identity,
task and category repositories (`app/repositories/*.py`), the auth, task
and category services (`app/services/*.py`) and the request dependencies
(`app/api/deps.py`), together with theorems settling the specified
properties.

Conventions of the embedding:
- timestamps (`datetime.utcnow()`) are naturals (seconds);
- UUIDs are naturals; `uuid.UUID(str)` parsing is `String.toNat?`
  (failure models the `ValueError` the source catches);
- a database table is a Lean list of records; SQLAlchemy
  `scalar_one_or_none` over a unique-key query is `List.find?`;
- Python exceptions become `Except` errors;
- Python truthiness tests on `Optional` values are matched on explicitly
  (e.g. an empty search string is falsy and disables the search filter).
-/

namespace App

/-- `TaskStatus` enum from `app/models/task.py`. -/
inductive TaskStatus
  | TODO
  | IN_PROGRESS
  | COMPLETED
  | ARCHIVED
  deriving DecidableEq, Repr

/-- `TaskPriority` enum from `app/models/task.py`. -/
inductive TaskPriority
  | LOW
  | MEDIUM
  | HIGH
  | URGENT
  deriving DecidableEq, Repr

/-- Row of the `tasks` table (`app/models/task.py`).  Audit columns other
than `created_at` (which drives result ordering) are not modelled. -/
structure Task where
  id : Nat
  user_id : Nat
  title : String
  description : Option String
  status : TaskStatus
  priority : TaskPriority
  due_date : Option Nat
  category_id : Option Nat
  created_at : Nat
  deriving DecidableEq, Repr

/-- The derived `Task.is_overdue` property (task.py:108-113): a truthy
due date with a non-COMPLETED status reports `utcnow() > due_date`,
anything else reports `False`. -/
def Task.is_overdue (t : Task) (now : Nat) : Bool :=
  match t.due_date with
  | some d => if !(t.status == TaskStatus.COMPLETED) then decide (d < now) else false
  | none => false

/-- Row of the `categories` table (`app/models/category.py`). -/
structure Category where
  id : Nat
  user_id : Nat
  name : String
  color : String
  created_at : Nat
  deriving DecidableEq, Repr

/-- Row of the `users` table (`app/models/user.py`). -/
structure User where
  id : Nat
  email : String
  username : String
  hashed_password : String
  is_active : Bool
  is_verified : Bool
  deriving DecidableEq, Repr

/-- The application's exception taxonomy (`app/core/exceptions.py`), plus
`unknownHashError` for passlib's `UnknownHashError` (a `ValueError`, not
an `AppException`) which `verify_password` does not catch. -/
inductive AppError
  | authenticationError (msg : String)
  | notFoundError (msg : String)
  | alreadyExistsError (msg : String)
  | invalidTokenError (msg : String)
  | inactiveUserError (msg : String)
  | unverifiedUserError (msg : String)
  | validationError (msg : String)
  | unknownHashError (msg : String)
  deriving DecidableEq, Repr

/-! ## Credential hashing (`app/core/security.py`, passlib bcrypt context)

`pwd_context = CryptContext(schemes=["bcrypt"], deprecated="auto")`.
A real bcrypt digest embeds a random salt; the embedding replaces the
salted digest by a deterministic injective encoding carrying the bcrypt
prefix, which preserves the observable contract: verification of a digest
produced by `hash` succeeds exactly on the original plaintext, and a
string that does not carry a recognizable bcrypt prefix is not
identifiable as any configured scheme, in which case passlib's
`CryptContext.verify` raises `UnknownHashError("hash could not be
identified")` rather than returning `False`. -/

/-- The bcrypt digest prefix used to model scheme identification. -/
def bcrypt_prefix : String := "$2b$12$"

/-- `pwd_context.hash` (used by `get_password_hash`): produces a digest
carrying the bcrypt scheme prefix. -/
def pwd_context_hash (password : String) : String :=
  bcrypt_prefix ++ password

/-- passlib scheme identification: a digest is recognized iff it carries
the bcrypt prefix. -/
def identifiable_digest (digest : String) : Bool :=
  bcrypt_prefix.toList.isPrefixOf digest.toList

/-- `pwd_context.verify`: raises `UnknownHashError` when the digest
matches no configured scheme, otherwise returns the boolean comparison
outcome. -/
def pwd_context_verify (plain : String) (digest : String) : Except AppError Bool :=
  if identifiable_digest digest then
    .ok (digest == pwd_context_hash plain)
  else
    .error (.unknownHashError "hash could not be identified")

/-- `get_password_hash` (security.py:36-46). -/
def get_password_hash (password : String) : String :=
  pwd_context_hash password

/-- `verify_password` (security.py:22-33): returns
`pwd_context.verify(plain_password, hashed_password)` directly, with no
exception handler around it. -/
def verify_password (plain_password : String) (hashed_password : String) :
    Except AppError Bool :=
  pwd_context_verify plain_password hashed_password

/-! ## JWT codec (`app/core/security.py`, python-jose) -/

/-- Claim set of a JWT as this application reads it: subject, expiry,
issued-at, and the custom `type` claim.  All are optional on the wire
(an arbitrary inbound token need not carry them); issuance always sets
them. -/
structure JwtPayload where
  sub : Option String
  exp : Option Nat
  iat : Option Nat
  typ : Option String
  deriving DecidableEq, Repr

/-- A compact token: payload plus signature. -/
structure Jwt where
  payload : JwtPayload
  sig : String
  deriving DecidableEq, Repr

/-- HS256 signature over the serialized payload with the configured
secret (`jwt.encode(..., settings.SECRET_KEY, settings.ALGORITHM)`),
modelled as a concrete keyed encoding of the claims. -/
def hmacSign (secret : String) (p : JwtPayload) : String :=
  secret ++ "|" ++ (p.typ.getD "-") ++ "|" ++ toString (p.exp.getD 0) ++ "|"
    ++ toString (p.iat.getD 0) ++ "|" ++ (p.sub.getD "-")

/-- `jwt.encode`: attach a valid signature to the claims. -/
def jwt_encode (secret : String) (p : JwtPayload) : Jwt :=
  ⟨p, hmacSign secret p⟩

/-- `jwt.decode` (python-jose): fails (raises a `JWTError`) when the
signature does not verify against the key, or when an `exp` claim is
present and `exp < now`; a token without an `exp` claim is not
expiry-checked.  `none` stands for the raised `JWTError`. -/
def jwt_decode (secret : String) (now : Nat) (token : Jwt) : Option JwtPayload :=
  if token.sig != hmacSign secret token.payload then
    none
  else
    match token.payload.exp with
    | some e => if e < now then none else some token.payload
    | none => some token.payload

/-- `decode_token` (security.py:164-189): decode, then when
`expected_type` is truthy (a non-empty string) reject a payload whose
`type` claim differs from it; any `JWTError` becomes `None`. -/
def decode_token (secret : String) (now : Nat) (token : Jwt)
    (expected_type : Option String) : Option JwtPayload :=
  match jwt_decode secret now token with
  | none => none
  | some payload =>
    match expected_type with
    | some et => if et != "" && payload.typ != some et then none else some payload
    | none => some payload

/-- `verify_token` (security.py:192-209): decode against the expected
type and return the `sub` claim; a falsy subject (absent or empty)
yields `None`. -/
def verify_token (secret : String) (now : Nat) (token : Jwt)
    (expected_type : String) : Option String :=
  match decode_token secret now token (some expected_type) with
  | none => none
  | some payload =>
    match payload.sub with
    | none => none
    | some s => if s == "" then none else some s

/-- `ACCESS_TOKEN_EXPIRE_MINUTES` default (config.py:32). -/
def ACCESS_TOKEN_EXPIRE_MINUTES : Nat := 15

/-- `REFRESH_TOKEN_EXPIRE_DAYS` default (config.py:33). -/
def REFRESH_TOKEN_EXPIRE_DAYS : Nat := 7

/-- `create_access_token` (security.py:49-79) with the default expiry
(`expires_delta=None`), for claims `{"sub": sub}`. -/
def create_access_token (secret : String) (sub : String) (now : Nat) : Jwt :=
  jwt_encode secret
    { sub := some sub
      exp := some (now + ACCESS_TOKEN_EXPIRE_MINUTES * 60)
      iat := some now
      typ := some "access" }

/-- `create_refresh_token` (security.py:82-107). -/
def create_refresh_token (secret : String) (sub : String) (now : Nat) : Jwt :=
  jwt_encode secret
    { sub := some sub
      exp := some (now + REFRESH_TOKEN_EXPIRE_DAYS * 86400)
      iat := some now
      typ := some "refresh" }

/-- `create_reset_token` (security.py:110-134): one-hour expiry, subject
is the given email. -/
def create_reset_token (secret : String) (email : String) (now : Nat) : Jwt :=
  jwt_encode secret
    { sub := some email
      exp := some (now + 3600)
      iat := some now
      typ := some "reset" }

/-- `create_verification_token` (security.py:137-161): 24-hour expiry. -/
def create_verification_token (secret : String) (email : String) (now : Nat) : Jwt :=
  jwt_encode secret
    { sub := some email
      exp := some (now + 86400)
      iat := some now
      typ := some "verification" }

/-- Decidable equality of `Except` outcomes, for evaluating results on
concrete inputs. -/
instance {ε α : Type} [DecidableEq ε] [DecidableEq α] : DecidableEq (Except ε α) :=
  fun x y =>
    match x, y with
    | .ok a, .ok b =>
      match decEq a b with
      | isTrue h => isTrue (h ▸ rfl)
      | isFalse h => isFalse (fun hh => h (Except.ok.inj hh))
    | .error a, .error b =>
      match decEq a b with
      | isTrue h => isTrue (h ▸ rfl)
      | isFalse h => isFalse (fun hh => h (Except.error.inj hh))
    | .ok _, .error _ => isFalse (fun hh => Except.noConfusion hh)
    | .error _, .ok _ => isFalse (fun hh => Except.noConfusion hh)

/-! ## SQL LIKE and query helpers -/

/-- SQL `LIKE` pattern matching over character lists: `%` matches any
run of characters (any suffix split of the text), `_` any single
character.  Structural recursion on the pattern. -/
def likeMatch : List Char → List Char → Bool
  | [], s => s.isEmpty
  | '%' :: ps, s => (List.tails s).any (fun s2 => likeMatch ps s2)
  | '_' :: _, [] => false
  | '_' :: ps, _ :: s => likeMatch ps s
  | _ :: _, [] => false
  | p :: ps, c :: s => (p == c) && likeMatch ps s

/-- Case folding for `ILIKE`. -/
def lowerChars (s : String) : List Char :=
  s.toList.map Char.toLower

/-- SQL `ILIKE`: case-insensitive `LIKE`. -/
def ilike (column : String) (pat : String) : Bool :=
  likeMatch (lowerChars pat) (lowerChars column)

/-- The filter arguments of
`TaskRepository.get_with_filters` (task_repository.py:75-105); `none`
models a Python `None` argument. -/
structure TaskFilters where
  status : Option TaskStatus
  priority : Option TaskPriority
  category_id : Option Nat
  search : Option String
  due_date_from : Option Nat
  due_date_to : Option Nat
  deriving DecidableEq, Repr

/-- The all-`None` filter set. -/
def TaskFilters.noFilters : TaskFilters :=
  ⟨none, none, none, none, none, none⟩

namespace TaskRepository

/-- The WHERE clause assembled by `get_with_filters`
(task_repository.py:107-133).  Each filter is applied only when its
argument is truthy (in particular an empty `search` string is falsy and
applies no search condition), mirroring the `if status: ...` guards.  A
`NULL` column compares as unknown, so a task without a description can
only match the search via its title, and a task without a due date is
excluded by either due-date bound. -/
def matches_filters (user_id : Nat) (f : TaskFilters) (t : Task) : Bool :=
  t.user_id == user_id
  && (match f.status with
      | some s => t.status == s
      | none => true)
  && (match f.priority with
      | some p => t.priority == p
      | none => true)
  && (match f.category_id with
      | some c => t.category_id == some c
      | none => true)
  && (match f.search with
      | some s =>
        if s == "" then true
        else
          ilike t.title ("%" ++ s ++ "%")
          || (match t.description with
              | some d => ilike d ("%" ++ s ++ "%")
              | none => false)
      | none => true)
  && (match f.due_date_from with
      | some lo => match t.due_date with
        | some d => lo ≤ d
        | none => false
      | none => true)
  && (match f.due_date_to with
      | some hi => match t.due_date with
        | some d => d ≤ hi
        | none => false
      | none => true)

/-- `ORDER BY created_at DESC`. -/
def created_desc (a b : Task) : Prop :=
  b.created_at ≤ a.created_at

instance : DecidableRel created_desc :=
  fun a b => Nat.decLe b.created_at a.created_at

/-- `ORDER BY due_date ASC` (a missing due date sorts as 0; the overdue
query filters those rows out anyway). -/
def due_asc (a b : Task) : Prop :=
  a.due_date.getD 0 ≤ b.due_date.getD 0

instance : DecidableRel due_asc :=
  fun a b => Nat.decLe (a.due_date.getD 0) (b.due_date.getD 0)

instance : IsTotal Task due_asc :=
  ⟨fun a b => Nat.le_total (a.due_date.getD 0) (b.due_date.getD 0)⟩

instance : IsTrans Task due_asc :=
  ⟨fun _ _ _ => Nat.le_trans⟩

/-- `TaskRepository.get_by_user_and_id` (task_repository.py:50-73):
`SELECT ... WHERE id = task_id AND user_id = user_id`, one row or
none.  Under the unique-id invariant `scalar_one_or_none` is the first
(only) match. -/
def get_by_user_and_id (tasks : List Task) (user_id task_id : Nat) : Option Task :=
  tasks.find? (fun t => t.id == task_id && t.user_id == user_id)

/-- `TaskRepository.get_with_filters` (task_repository.py:75-147): the
total is a `COUNT` over the filtered query before ordering and
pagination; the page is the filtered query ordered by `created_at DESC`
with `OFFSET skip LIMIT limit`. -/
def get_with_filters (tasks : List Task) (user_id : Nat) (f : TaskFilters)
    (skip : Nat) (limit : Nat) : List Task × Nat :=
  let filtered := tasks.filter (matches_filters user_id f)
  let total := filtered.length
  let page := ((List.insertionSort created_desc filtered).drop skip).take limit
  (page, total)

/-- The WHERE clause of `get_overdue_tasks` (task_repository.py:231-237):
owner match, status ≠ COMPLETED, `due_date < now` (a `NULL` due date
compares as unknown and is excluded). -/
def overdue_row (user_id : Nat) (now : Nat) (t : Task) : Bool :=
  t.user_id == user_id
  && !(t.status == TaskStatus.COMPLETED)
  && (match t.due_date with
      | some d => d < now
      | none => false)

/-- `TaskRepository.get_overdue_tasks` (task_repository.py:212-242):
overdue rows ordered by `due_date ASC` with `OFFSET skip LIMIT limit`. -/
def get_overdue_tasks (tasks : List Task) (user_id : Nat) (now : Nat)
    (skip : Nat) (limit : Nat) : List Task :=
  ((List.insertionSort due_asc (tasks.filter (overdue_row user_id now))).drop skip).take limit

/-- `TaskRepository.count_user_tasks` (task_repository.py:244-267):
`COUNT` of the owner's tasks, optionally restricted to one status. -/
def count_user_tasks (tasks : List Task) (user_id : Nat)
    (status : Option TaskStatus) : Nat :=
  (tasks.filter (fun t =>
    t.user_id == user_id
    && (match status with
        | some s => t.status == s
        | none => true))).length

end TaskRepository

namespace CategoryRepository

/-- `CategoryRepository.get_by_user_and_id` (category_repository.py:49-72). -/
def get_by_user_and_id (categories : List Category) (user_id category_id : Nat) :
    Option Category :=
  categories.find? (fun c => c.id == category_id && c.user_id == user_id)

/-- `CategoryRepository.name_exists_for_user` (category_repository.py:99-127):
the `exclude_id` clause is added only when the argument is truthy. -/
def name_exists_for_user (categories : List Category) (user_id : Nat)
    (name : String) (exclude_id : Option Nat) : Bool :=
  (categories.find? (fun c =>
    c.user_id == user_id
    && c.name == name
    && (match exclude_id with
        | some e => !(c.id == e)
        | none => true))).isSome

end CategoryRepository

namespace UserRepository

/-- `BaseRepository.get` (base.py:36-50) at the users table. -/
def get (users : List User) (id : Nat) : Option User :=
  users.find? (fun u => u.id == id)

/-- `UserRepository.get_by_email` (user_repository.py:20-34). -/
def get_by_email (users : List User) (email : String) : Option User :=
  users.find? (fun u => u.email == email)

/-- `UserRepository.get_by_email_or_username` (user_repository.py:52-72). -/
def get_by_email_or_username (users : List User) (identifier : String) : Option User :=
  users.find? (fun u => u.email == identifier || u.username == identifier)

end UserRepository

/-! ## Services -/

/-- `TaskUpdate` schema as consumed through
`model_dump(exclude_unset=True)`: a `none` field was not supplied.
(An explicitly supplied SQL `NULL` assignment is outside this model;
the claims settled here only need the unset/supplied distinction.) -/
structure TaskUpdate where
  title : Option String
  description : Option String
  status : Option TaskStatus
  priority : Option TaskPriority
  due_date : Option Nat
  category_id : Option Nat
  deriving DecidableEq, Repr

/-- `model_dump(exclude_unset=True)` produced an empty dict. -/
def TaskUpdate.dump_empty (u : TaskUpdate) : Bool :=
  u.title.isNone && u.description.isNone && u.status.isNone
    && u.priority.isNone && u.due_date.isNone && u.category_id.isNone

/-- The update with no field supplied. -/
def TaskUpdate.unset : TaskUpdate :=
  ⟨none, none, none, none, none, none⟩

namespace TaskRepository

/-- `BaseRepository.update` (base.py:92-117) at the tasks table: set
each supplied field on the fetched row and flush; the returned pair is
(updated row, table after the write). -/
def update (tasks : List Task) (db_obj : Task) (obj_in : TaskUpdate) :
    Task × List Task :=
  let updated : Task :=
    { db_obj with
      title := obj_in.title.getD db_obj.title
      description := match obj_in.description with
        | some d => some d
        | none => db_obj.description
      status := obj_in.status.getD db_obj.status
      priority := obj_in.priority.getD db_obj.priority
      due_date := match obj_in.due_date with
        | some d => some d
        | none => db_obj.due_date
      category_id := match obj_in.category_id with
        | some c => some c
        | none => db_obj.category_id }
  (updated, tasks.map (fun t => if t.id == db_obj.id then updated else t))

end TaskRepository

/-- Result of `TaskService.get_task_statistics` (task_service.py:197-206). -/
structure TaskStatistics where
  total : Nat
  todo : Nat
  in_progress : Nat
  completed : Nat
  archived : Nat
  overdue : Nat
  deriving DecidableEq, Repr

namespace TaskService

/-- `TaskService.get_task` (task_service.py:63-76): owner-scoped fetch,
`NotFoundError("Task not found")` when the row is absent or owned by a
different user. -/
def get_task (tasks : List Task) (user_id task_id : Nat) : Except AppError Task :=
  match TaskRepository.get_by_user_and_id tasks user_id task_id with
  | none => .error (.notFoundError "Task not found")
  | some t => .ok t

/-- `TaskService.update_task` (task_service.py:78-111): fetch with
ownership check; an empty update dict returns the fetched row with no
write; otherwise a supplied truthy `category_id` must resolve under the
same owner before the write. -/
def update_task (tasks : List Task) (categories : List Category)
    (user_id task_id : Nat) (task_update : TaskUpdate) :
    Except AppError (Task × List Task) :=
  match TaskRepository.get_by_user_and_id tasks user_id task_id with
  | none => .error (.notFoundError "Task not found")
  | some task =>
    if task_update.dump_empty then
      .ok (task, tasks)
    else
      match task_update.category_id with
      | some cid =>
        match CategoryRepository.get_by_user_and_id categories user_id cid with
        | none => .error (.notFoundError "Category not found")
        | some _ => .ok (TaskRepository.update tasks task task_update)
      | none => .ok (TaskRepository.update tasks task task_update)

/-- `TaskService.get_task_statistics` (task_service.py:180-206): per-
status counts via `count_user_tasks`; the overdue figure is the length
of `get_overdue_tasks(db, user_id, 0, 1)` — a single page of size 1. -/
def get_task_statistics (tasks : List Task) (user_id : Nat) (now : Nat) :
    TaskStatistics :=
  { total := TaskRepository.count_user_tasks tasks user_id none
    todo := TaskRepository.count_user_tasks tasks user_id (some .TODO)
    in_progress := TaskRepository.count_user_tasks tasks user_id (some .IN_PROGRESS)
    completed := TaskRepository.count_user_tasks tasks user_id (some .COMPLETED)
    archived := TaskRepository.count_user_tasks tasks user_id (some .ARCHIVED)
    overdue := (TaskRepository.get_overdue_tasks tasks user_id now 0 1).length }

end TaskService

/-- `CategoryUpdate` schema through `model_dump(exclude_unset=True)`. -/
structure CategoryUpdate where
  name : Option String
  color : Option String
  deriving DecidableEq, Repr

/-- `model_dump(exclude_unset=True)` produced an empty dict. -/
def CategoryUpdate.dump_empty (u : CategoryUpdate) : Bool :=
  u.name.isNone && u.color.isNone

/-- The update with no field supplied. -/
def CategoryUpdate.unset : CategoryUpdate :=
  ⟨none, none⟩

namespace CategoryRepository

/-- `BaseRepository.update` (base.py:92-117) at the categories table. -/
def update (categories : List Category) (db_obj : Category)
    (obj_in : CategoryUpdate) : Category × List Category :=
  let updated : Category :=
    { db_obj with
      name := obj_in.name.getD db_obj.name
      color := obj_in.color.getD db_obj.color }
  (updated, categories.map (fun c => if c.id == db_obj.id then updated else c))

end CategoryRepository

namespace CategoryService

/-- `CategoryService.get_category` (category_service.py:81-110). -/
def get_category (categories : List Category) (user_id category_id : Nat) :
    Except AppError Category :=
  match CategoryRepository.get_by_user_and_id categories user_id category_id with
  | none => .error (.notFoundError "Category not found")
  | some c => .ok c

/-- `CategoryService.update_category` (category_service.py:112-165):
ownership check, empty-dict early return, duplicate-name check excluding
the record's own id, then the write.  (The source formats the duplicate
message with the quoted name; the quoting is elided here.) -/
def update_category (categories : List Category) (user_id category_id : Nat)
    (category_update : CategoryUpdate) : Except AppError (Category × List Category) :=
  match CategoryRepository.get_by_user_and_id categories user_id category_id with
  | none => .error (.notFoundError "Category not found")
  | some category =>
    if category_update.dump_empty then
      .ok (category, categories)
    else
      match category_update.name with
      | some newName =>
        if CategoryRepository.name_exists_for_user categories user_id newName
            (some category_id) then
          .error (.alreadyExistsError ("Category " ++ newName ++ " already exists"))
        else
          .ok (CategoryRepository.update categories category category_update)
      | none => .ok (CategoryRepository.update categories category category_update)

end CategoryService

namespace AuthService

/-- `AuthService.authenticate` (auth_service.py:78-113).  The passlib
error a malformed stored digest would raise propagates (the source has
no handler around `verify_password`). -/
def authenticate (users : List User) (username password : String) :
    Except AppError User :=
  match UserRepository.get_by_email_or_username users username with
  | none => .error (.authenticationError "Incorrect username or password")
  | some user =>
    match verify_password password user.hashed_password with
    | .error e => .error e
    | .ok pw_ok =>
      if !pw_ok then .error (.authenticationError "Incorrect username or password")
      else if !user.is_active then .error (.inactiveUserError "User account is inactive")
      else .ok user

/-- `AuthService.request_password_reset` (auth_service.py:187-217): both
branches return `create_reset_token(email)`; the user lookup only
decides which (identical) return statement runs. -/
def request_password_reset (users : List User) (secret : String) (now : Nat)
    (email : String) : Jwt :=
  match UserRepository.get_by_email users email with
  | none => create_reset_token secret email now
  | some _ => create_reset_token secret email now

/-- `AuthService.reset_password` (auth_service.py:219-259): verify the
reset token, fetch the owner of the embedded email, overwrite the hash.
Returns the source's `True` together with the users table after the
write. -/
def reset_password (users : List User) (secret : String) (now : Nat)
    (token : Jwt) (new_password : String) : Except AppError (Bool × List User) :=
  match verify_token secret now token "reset" with
  | none => .error (.invalidTokenError "Invalid or expired reset token")
  | some email =>
    match UserRepository.get_by_email users email with
    | none => .error (.notFoundError "User not found")
    | some user =>
      .ok (true, users.map (fun u =>
        if u.id == user.id then
          { u with hashed_password := get_password_hash new_password }
        else u))

end AuthService

/-! ## Request dependencies (`app/api/deps.py`) -/

/-- An HTTP-level error (`fastapi.HTTPException`). -/
structure HttpError where
  status_code : Nat
  detail : String
  deriving DecidableEq, Repr

/-- The request's `Authorization` header as
`fastapi.security.OAuth2PasswordBearer` parses it: absent (or empty,
which is falsy), a bearer credential, or some other scheme. -/
inductive AuthHeader
  | missing
  | bearer (token : Jwt)
  | nonBearer (scheme : String)
  deriving DecidableEq, Repr

/-- `OAuth2PasswordBearer(tokenUrl="/api/v1/auth/login")` (deps.py:21)
leaves the constructor's `auto_error` parameter at its default `True`. -/
def oauth2_scheme_auto_error : Bool := true

/-- `OAuth2PasswordBearer.__call__`: when the header is missing or its
scheme is not `bearer`, raise `HTTPException(401, "Not authenticated")`
if `auto_error` is set, else resolve to `None`; otherwise yield the
credential. -/
def oauth2_scheme (header : AuthHeader) : Except HttpError (Option Jwt) :=
  match header with
  | .missing =>
    if oauth2_scheme_auto_error then .error ⟨401, "Not authenticated"⟩ else .ok none
  | .bearer token => .ok (some token)
  | .nonBearer _ =>
    if oauth2_scheme_auto_error then .error ⟨401, "Not authenticated"⟩ else .ok none

/-- `get_current_user_optional` (deps.py:153-188) as resolved on a
request: FastAPI first resolves the `oauth2_scheme` sub-dependency (any
exception it raises short-circuits), then the function body runs:
`None` token resolves to `None`, an invalid token or unparsable subject
resolves to `None`, otherwise the user lookup's result is returned. -/
def get_current_user_optional (users : List User) (secret : String) (now : Nat)
    (header : AuthHeader) : Except HttpError (Option User) :=
  match oauth2_scheme header with
  | .error e => .error e
  | .ok none => .ok none
  | .ok (some token) =>
    match verify_token secret now token "access" with
    | none => .ok none
    | some user_id_str =>
      match user_id_str.toNat? with
      | none => .ok none
      | some user_id => .ok (UserRepository.get users user_id)

/-! ## Concrete instances used by witnesses -/

/-- A task owned by user 0 with id and creation stamp `i`. -/
def sampleTask (i : Nat) : Task :=
  ⟨i, 0, "t", none, .TODO, .MEDIUM, none, none, i⟩

/-! ## Theorems -/

/-- C1: an owner-scoped fetch by user `u` of a task or category id held
by a different owner `v` yields the very `NotFound` outcome of fetching
an id that exists nowhere, so the result does not reveal whether the id
exists under another owner. -/
theorem owner_scoped_fetch_hides_foreign_rows
    (tasks : List Task) (categories : List Category)
    (u v tid cid tidGhost cidGhost : Nat)
    (huv : v ≠ u)
    (_htEx : ∃ t ∈ tasks, t.id = tid)
    (htOwn : ∀ t ∈ tasks, t.id = tid → t.user_id = v)
    (htGhost : ∀ t ∈ tasks, t.id ≠ tidGhost)
    (_hcEx : ∃ c ∈ categories, c.id = cid)
    (hcOwn : ∀ c ∈ categories, c.id = cid → c.user_id = v)
    (hcGhost : ∀ c ∈ categories, c.id ≠ cidGhost) :
    TaskService.get_task tasks u tid = .error (.notFoundError "Task not found")
    ∧ TaskService.get_task tasks u tid = TaskService.get_task tasks u tidGhost
    ∧ CategoryService.get_category categories u cid
        = .error (.notFoundError "Category not found")
    ∧ CategoryService.get_category categories u cid
        = CategoryService.get_category categories u cidGhost := by
  have h1 : TaskRepository.get_by_user_and_id tasks u tid = none := by
    refine List.find?_eq_none.mpr (fun t ht => ?_)
    simp only [Bool.and_eq_true, beq_iff_eq, not_and]
    intro hid hu
    exact huv ((htOwn t ht hid).symm.trans hu)
  have h2 : TaskRepository.get_by_user_and_id tasks u tidGhost = none := by
    refine List.find?_eq_none.mpr (fun t ht => ?_)
    simp only [Bool.and_eq_true, beq_iff_eq, not_and]
    intro hid _
    exact htGhost t ht hid
  have h3 : CategoryRepository.get_by_user_and_id categories u cid = none := by
    refine List.find?_eq_none.mpr (fun c hc => ?_)
    simp only [Bool.and_eq_true, beq_iff_eq, not_and]
    intro hid hu
    exact huv ((hcOwn c hc hid).symm.trans hu)
  have h4 : CategoryRepository.get_by_user_and_id categories u cidGhost = none := by
    refine List.find?_eq_none.mpr (fun c hc => ?_)
    simp only [Bool.and_eq_true, beq_iff_eq, not_and]
    intro hid _
    exact hcGhost c hc hid
  refine ⟨?_, ?_, ?_, ?_⟩ <;>
    simp [TaskService.get_task, CategoryService.get_category, h1, h2, h3, h4]

/-- C1 witness: user 0 fetching task 1 and category 1, both owned by
user 2, gets the plain `NotFound` outcomes. -/
theorem owner_scoped_fetch_hides_foreign_rows_witness :
    TaskService.get_task [⟨1, 2, "t", none, .TODO, .MEDIUM, none, none, 0⟩] 0 1
      = .error (.notFoundError "Task not found")
    ∧ CategoryService.get_category [⟨1, 2, "Work", "ffffff", 0⟩] 0 1
      = .error (.notFoundError "Category not found") := by
  have h := owner_scoped_fetch_hides_foreign_rows
    [⟨1, 2, "t", none, .TODO, .MEDIUM, none, none, 0⟩]
    [⟨1, 2, "Work", "ffffff", 0⟩]
    0 2 1 1 9 9
    (by decide) (by decide) (by decide) (by decide)
    (by decide) (by decide) (by decide)
  exact ⟨h.1, h.2.2.1⟩

/-- Characterization of `verify_token` success: against a truthy
expected type it requires a valid signature, an unexpired (or absent)
`exp` claim, the matching `type` claim and a truthy subject. -/
theorem verify_token_some_iff (secret : String) (now : Nat) (tok : Jwt)
    (k s : String) (hk : k ≠ "") :
    verify_token secret now tok k = some s ↔
      tok.sig = hmacSign secret tok.payload
      ∧ (∀ e, tok.payload.exp = some e → now ≤ e)
      ∧ tok.payload.typ = some k
      ∧ tok.payload.sub = some s
      ∧ s ≠ "" := by
  unfold verify_token decode_token jwt_decode
  by_cases hs : tok.sig = hmacSign secret tok.payload
  · cases hexp : tok.payload.exp with
    | none =>
      by_cases ht : tok.payload.typ = some k
      · cases hsub : tok.payload.sub with
        | none => simp [hs, hexp, ht, hsub, hk]
        | some s0 =>
          by_cases hs0 : s0 = "" <;>
            simp [hs, hexp, ht, hsub, hk, hs0] <;> aesop
      · simp [hs, hexp, ht, hk]
    | some e =>
      by_cases he : e < now
      · simp [hs, hexp, he, hk]
      · by_cases ht : tok.payload.typ = some k
        · cases hsub : tok.payload.sub with
          | none => simp [hs, hexp, he, ht, hsub, hk]
          | some s0 =>
            by_cases hs0 : s0 = "" <;>
              simp [hs, hexp, he, ht, hsub, hk, hs0] <;> aesop
        · simp [hs, hexp, he, ht, hk]
  · simp [hs]

/-- C2: verification returns the embedded subject only when the
signature is valid, the token unexpired and the declared kind equal to
the expected kind; a signature-invalid, expired or kind-mismatched
token verifies to no subject; and a kind=access token fails against
kind=refresh and vice versa. -/
theorem token_verification_checks_sig_expiry_kind
    (secret : String) (now : Nat) (tok : Jwt) (k s : String)
    (hk : k ≠ "") :
    (verify_token secret now tok k = some s →
      tok.sig = hmacSign secret tok.payload
      ∧ (∀ e, tok.payload.exp = some e → now ≤ e)
      ∧ tok.payload.typ = some k
      ∧ tok.payload.sub = some s)
    ∧ (tok.sig ≠ hmacSign secret tok.payload → verify_token secret now tok k = none)
    ∧ (∀ e, tok.payload.exp = some e → e < now → verify_token secret now tok k = none)
    ∧ (tok.payload.typ ≠ some k → verify_token secret now tok k = none)
    ∧ (∀ sub iss now2,
        verify_token secret now2 (create_access_token secret sub iss) "refresh" = none
        ∧ verify_token secret now2 (create_refresh_token secret sub iss) "access" = none) := by
  have hnone : ∀ (now2 : Nat),
      ¬(tok.sig = hmacSign secret tok.payload
        ∧ (∀ e, tok.payload.exp = some e → now2 ≤ e)
        ∧ tok.payload.typ = some k) →
      verify_token secret now2 tok k = none := by
    intro now2 hfail
    cases hv : verify_token secret now2 tok k with
    | none => rfl
    | some s2 =>
      have := (verify_token_some_iff secret now2 tok k s2 hk).mp hv
      exact absurd ⟨this.1, this.2.1, this.2.2.1⟩ hfail
  refine ⟨?_, ?_, ?_, ?_, ?_⟩
  · intro h
    have := (verify_token_some_iff secret now tok k s hk).mp h
    exact ⟨this.1, this.2.1, this.2.2.1, this.2.2.2.1⟩
  · intro hsig
    exact hnone now (fun hc => hsig hc.1)
  · intro e he hlt
    refine hnone now (fun hc => ?_)
    have := hc.2.1 e he
    omega
  · intro htyp
    exact hnone now (fun hc => htyp hc.2.2)
  · intro sub iss now2
    constructor
    · cases hv : verify_token secret now2 (create_access_token secret sub iss) "refresh" with
      | none => rfl
      | some s2 =>
        have := (verify_token_some_iff secret now2
          (create_access_token secret sub iss) "refresh" s2 (by decide)).mp hv
        have htyp := this.2.2.1
        simp [create_access_token, jwt_encode] at htyp
    · cases hv : verify_token secret now2 (create_refresh_token secret sub iss) "access" with
      | none => rfl
      | some s2 =>
        have := (verify_token_some_iff secret now2
          (create_refresh_token secret sub iss) "access" s2 (by decide)).mp hv
        have htyp := this.2.2.1
        simp [create_refresh_token, jwt_encode] at htyp

/-- C2 witness: a freshly issued access token for subject 42 verifies
as kind=access (so the success characterization fires) and fails
against kind=refresh. -/
theorem token_verification_checks_sig_expiry_kind_witness :
    (create_access_token "key" "42" 0).payload.typ = some "access"
    ∧ (create_access_token "key" "42" 0).payload.sub = some "42"
    ∧ verify_token "key" 0 (create_access_token "key" "42" 0) "refresh" = none
    ∧ verify_token "key" 0 (create_refresh_token "key" "42" 0) "access" = none := by
  have h := token_verification_checks_sig_expiry_kind
    "key" 0 (create_access_token "key" "42" 0) "access" "42" (by decide)
  have hsucc := h.1 (by decide)
  have hcross := h.2.2.2.2 "42" 0 0
  exact ⟨hsucc.2.2.1, hsucc.2.2.2, hcross.1, hcross.2⟩

/-- C3: the filtered task query returns `(page, total)` with `total`
the count of all of the owner's tasks satisfying the same filter
predicate before pagination; the page holds `min limit (total - skip)`
of them, so 15 matches with `skip=0, limit=10` yield 10 items and
`total = 15`. -/
theorem filtered_query_total_counts_before_pagination
    (tasks : List Task) (u : Nat) (f : TaskFilters) (skip limit : Nat) :
    (TaskRepository.get_with_filters tasks u f skip limit).2
      = (tasks.filter (TaskRepository.matches_filters u f)).length
    ∧ (TaskRepository.get_with_filters tasks u f skip limit).1.length
      = min limit ((tasks.filter (TaskRepository.matches_filters u f)).length - skip)
    ∧ ((tasks.filter (TaskRepository.matches_filters u f)).length = 15 →
        skip = 0 → limit = 10 →
        (TaskRepository.get_with_filters tasks u f skip limit).1.length = 10
        ∧ (TaskRepository.get_with_filters tasks u f skip limit).2 = 15) := by
  have hpage : (TaskRepository.get_with_filters tasks u f skip limit).1.length
      = min limit ((tasks.filter (TaskRepository.matches_filters u f)).length - skip) := by
    show (((List.insertionSort TaskRepository.created_desc
        (tasks.filter (TaskRepository.matches_filters u f))).drop skip).take limit).length = _
    rw [List.length_take, List.length_drop,
      (List.perm_insertionSort TaskRepository.created_desc
        (tasks.filter (TaskRepository.matches_filters u f))).length_eq]
  refine ⟨rfl, hpage, ?_⟩
  intro h15 hskip hlimit
  subst hskip hlimit
  refine ⟨?_, h15⟩
  rw [hpage, h15]
  decide

/-- C3 witness: 15 matching tasks, `skip=0, limit=10` — 10 items in the
page, total 15. -/
theorem filtered_query_total_counts_before_pagination_witness :
    (TaskRepository.get_with_filters ((List.range 15).map sampleTask) 0
        TaskFilters.noFilters 0 10).1.length = 10
    ∧ (TaskRepository.get_with_filters ((List.range 15).map sampleTask) 0
        TaskFilters.noFilters 0 10).2 = 15 :=
  (filtered_query_total_counts_before_pagination
    ((List.range 15).map sampleTask) 0 TaskFilters.noFilters 0 10).2.2
    (by decide) rfl rfl

/-- C4: the statistics aggregation reports the overdue figure as the
length of one page of the overdue query taken with page size 1, so the
reported count is `min 1 (actual overdue count)` — capped at the page
size used for the probe. -/
theorem statistics_overdue_count_is_probe_page_length
    (tasks : List Task) (u now : Nat) :
    (TaskService.get_task_statistics tasks u now).overdue
      = (TaskRepository.get_overdue_tasks tasks u now 0 1).length
    ∧ (TaskService.get_task_statistics tasks u now).overdue
      = min 1 ((tasks.filter (TaskRepository.overdue_row u now)).length)
    ∧ (TaskService.get_task_statistics tasks u now).overdue ≤ 1 := by
  have hlen : (TaskService.get_task_statistics tasks u now).overdue
      = min 1 ((tasks.filter (TaskRepository.overdue_row u now)).length) := by
    show (((List.insertionSort TaskRepository.due_asc
        (tasks.filter (TaskRepository.overdue_row u now))).drop 0).take 1).length = _
    rw [List.length_take, List.length_drop,
      (List.perm_insertionSort TaskRepository.due_asc
        (tasks.filter (TaskRepository.overdue_row u now))).length_eq,
      Nat.sub_zero]
  exact ⟨rfl, hlen, hlen ▸ Nat.min_le_left 1 _⟩

/-- `overdue_row` unfolded to propositional form. -/
theorem overdue_row_eq_true_iff (u now : Nat) (t : Task) :
    TaskRepository.overdue_row u now t = true ↔
      t.user_id = u ∧ t.status ≠ TaskStatus.COMPLETED
        ∧ ∃ d, t.due_date = some d ∧ d < now := by
  unfold TaskRepository.overdue_row
  cases hd : t.due_date <;>
    simp [Bool.and_eq_true, beq_iff_eq, hd, and_assoc]

/-- C5: with `skip=0` and a page large enough, the overdue query
returns exactly the owner's non-COMPLETED tasks whose due timestamp is
strictly before `now` (tasks without a due timestamp excluded), in
ascending due-timestamp order; such tasks report `is_overdue=true`,
and a COMPLETED task never reports `is_overdue=true`. -/
theorem overdue_query_exact_and_sorted
    (tasks : List Task) (u now limit : Nat)
    (hlim : (tasks.filter (TaskRepository.overdue_row u now)).length ≤ limit) :
    (∀ t, t ∈ TaskRepository.get_overdue_tasks tasks u now 0 limit ↔
      (t ∈ tasks ∧ t.user_id = u ∧ t.status ≠ TaskStatus.COMPLETED
        ∧ ∃ d, t.due_date = some d ∧ d < now))
    ∧ (TaskRepository.get_overdue_tasks tasks u now 0 limit).Sorted
        TaskRepository.due_asc
    ∧ (∀ t ∈ TaskRepository.get_overdue_tasks tasks u now 0 limit,
        Task.is_overdue t now = true)
    ∧ (∀ t : Task, t.status = TaskStatus.COMPLETED →
        Task.is_overdue t now = false) := by
  have hperm := List.perm_insertionSort TaskRepository.due_asc
    (tasks.filter (TaskRepository.overdue_row u now))
  have hres : TaskRepository.get_overdue_tasks tasks u now 0 limit
      = List.insertionSort TaskRepository.due_asc
        (tasks.filter (TaskRepository.overdue_row u now)) := by
    show ((List.insertionSort TaskRepository.due_asc
        (tasks.filter (TaskRepository.overdue_row u now))).drop 0).take limit = _
    rw [List.drop_zero]
    exact List.take_of_length_le (hperm.length_eq ▸ hlim)
  have hmem : ∀ t, t ∈ TaskRepository.get_overdue_tasks tasks u now 0 limit ↔
      (t ∈ tasks ∧ t.user_id = u ∧ t.status ≠ TaskStatus.COMPLETED
        ∧ ∃ d, t.due_date = some d ∧ d < now) := by
    intro t
    rw [hres, hperm.mem_iff, List.mem_filter, overdue_row_eq_true_iff]
  refine ⟨hmem, ?_, ?_, ?_⟩
  · rw [hres]
    exact List.sorted_insertionSort TaskRepository.due_asc _
  · intro t ht
    obtain ⟨-, -, hstat, d, hd, hlt⟩ := (hmem t).mp ht
    unfold Task.is_overdue
    simp [hd, hstat, hlt]
  · intro t hstat
    unfold Task.is_overdue
    cases hd : t.due_date <;> simp [hd, hstat]

/-- C5 witness: for one overdue TODO task (due 50 < now 100) and one
COMPLETED task, the overdue query returns the TODO task, which reports
`is_overdue=true`, while the COMPLETED one reports `is_overdue=false`. -/
theorem overdue_query_exact_and_sorted_witness :
    (⟨1, 0, "a", none, .TODO, .MEDIUM, some 50, none, 0⟩ : Task)
        ∈ TaskRepository.get_overdue_tasks
          [⟨1, 0, "a", none, .TODO, .MEDIUM, some 50, none, 0⟩,
           ⟨2, 0, "b", none, .COMPLETED, .MEDIUM, some 50, none, 0⟩] 0 100 0 10
    ∧ Task.is_overdue ⟨1, 0, "a", none, .TODO, .MEDIUM, some 50, none, 0⟩ 100 = true
    ∧ Task.is_overdue ⟨2, 0, "b", none, .COMPLETED, .MEDIUM, some 50, none, 0⟩ 100
        = false := by
  have h := overdue_query_exact_and_sorted
    [⟨1, 0, "a", none, .TODO, .MEDIUM, some 50, none, 0⟩,
     ⟨2, 0, "b", none, .COMPLETED, .MEDIUM, some 50, none, 0⟩] 0 100 10 (by decide)
  have hmem := (h.1 ⟨1, 0, "a", none, .TODO, .MEDIUM, some 50, none, 0⟩).mpr
    ⟨by decide, rfl, by decide, ⟨50, rfl, by decide⟩⟩
  exact ⟨hmem, h.2.2.1 _ hmem, h.2.2.2 _ rfl⟩

/-- C6: requesting a password reset returns `create_reset_token(email)`
whatever the users table holds — the same token bound to the given
email string whether or not an identity owns it — and a reset attempt
with a token whose embedded email has no owner fails `NotFound`. -/
theorem password_reset_token_independent_of_account
    (users : List User) (secret : String) (now : Nat) (email : String) :
    AuthService.request_password_reset users secret now email
      = create_reset_token secret email now
    ∧ (AuthService.request_password_reset users secret now email).payload.sub
      = some email
    ∧ (∀ (users2 : List User) (tok : Jwt) (new_password e : String),
        verify_token secret now tok "reset" = some e →
        UserRepository.get_by_email users2 e = none →
        AuthService.reset_password users2 secret now tok new_password
          = .error (.notFoundError "User not found")) := by
  have hreq : AuthService.request_password_reset users secret now email
      = create_reset_token secret email now := by
    unfold AuthService.request_password_reset
    cases UserRepository.get_by_email users email <;> rfl
  refine ⟨hreq, by rw [hreq]; rfl, ?_⟩
  intro users2 tok new_password e hv hget
  unfold AuthService.reset_password
  rw [hv]
  simp [hget]

/-- C6 witness: against an empty users table the reset request still
returns the token bound to the email, and redeeming that token fails
`NotFound`. -/
theorem password_reset_token_independent_of_account_witness :
    AuthService.request_password_reset [] "key" 0 "a@b"
      = create_reset_token "key" "a@b" 0
    ∧ AuthService.reset_password [] "key" 0 (create_reset_token "key" "a@b" 0) "npw"
      = .error (.notFoundError "User not found") := by
  have h := password_reset_token_independent_of_account [] "key" 0 "a@b"
  exact ⟨h.1, h.2.2 [] (create_reset_token "key" "a@b" 0) "npw" "a@b" (by decide) rfl⟩

/-- C7: authentication fails `AuthenticationError` when no identity
matches the identifier or the password does not verify, fails
`InactiveUser` when the matched identity is inactive, and otherwise
returns the identity — with no condition on its verification state. -/
theorem authenticate_error_taxonomy
    (users : List User) (identifier password : String) :
    (UserRepository.get_by_email_or_username users identifier = none →
      AuthService.authenticate users identifier password
        = .error (.authenticationError "Incorrect username or password"))
    ∧ (∀ user, UserRepository.get_by_email_or_username users identifier = some user →
        verify_password password user.hashed_password = .ok false →
        AuthService.authenticate users identifier password
          = .error (.authenticationError "Incorrect username or password"))
    ∧ (∀ user, UserRepository.get_by_email_or_username users identifier = some user →
        verify_password password user.hashed_password = .ok true →
        user.is_active = false →
        AuthService.authenticate users identifier password
          = .error (.inactiveUserError "User account is inactive"))
    ∧ (∀ user, UserRepository.get_by_email_or_username users identifier = some user →
        verify_password password user.hashed_password = .ok true →
        user.is_active = true →
        AuthService.authenticate users identifier password = .ok user) := by
  refine ⟨?_, ?_, ?_, ?_⟩
  · intro hfind
    unfold AuthService.authenticate
    rw [hfind]
  · intro user hfind hpw
    unfold AuthService.authenticate
    rw [hfind]
    simp [hpw]
  · intro user hfind hpw hact
    unfold AuthService.authenticate
    rw [hfind]
    simp [hpw, hact]
  · intro user hfind hpw hact
    unfold AuthService.authenticate
    rw [hfind]
    simp [hpw, hact]

/-- C7 witness: an active but unverified identity authenticates
successfully; an unknown identifier fails `AuthenticationError`. -/
theorem authenticate_error_taxonomy_witness :
    AuthService.authenticate [⟨1, "a@b", "alice", get_password_hash "pw", true, false⟩]
        "alice" "pw"
      = .ok ⟨1, "a@b", "alice", get_password_hash "pw", true, false⟩
    ∧ AuthService.authenticate [] "bob" "x"
      = .error (.authenticationError "Incorrect username or password") := by
  refine ⟨?_, ?_⟩
  · exact (authenticate_error_taxonomy
      [⟨1, "a@b", "alice", get_password_hash "pw", true, false⟩] "alice" "pw").2.2.2
      ⟨1, "a@b", "alice", get_password_hash "pw", true, false⟩
      (by decide) (by decide) rfl
  · exact (authenticate_error_taxonomy [] "bob" "x").1 rfl

/-- C8 counterexample: at plaintext `"password"` and the malformed
digest `""`, verification raises passlib's hash-identification error
(propagated uncaught by `verify_password`); it does not return
`false`. -/
theorem verify_password_raises_on_malformed_digest :
    verify_password "password" ""
      = .error (.unknownHashError "hash could not be identified")
    ∧ verify_password "password" "" ≠ .ok false := by
  exact ⟨by decide, by decide⟩

/-- C8 (amended): for every plaintext and digest, verification returns
a boolean when the digest is a recognizable bcrypt digest; a malformed
digest makes verification raise the hash-identification error rather
than return false. -/
theorem verify_password_boolean_on_wellformed_digest
    (plain digest : String) :
    (identifiable_digest digest = true →
      verify_password plain digest = .ok (digest == pwd_context_hash plain))
    ∧ (identifiable_digest digest = false →
      verify_password plain digest
        = .error (.unknownHashError "hash could not be identified")) := by
  unfold verify_password pwd_context_verify
  refine ⟨fun h => ?_, fun h => ?_⟩ <;> simp [h]

/-- C8 (amended) witness: a well-formed digest verifies to a boolean; a
malformed one yields the error outcome. -/
theorem verify_password_boolean_on_wellformed_digest_witness :
    verify_password "pw" "$2b$12$pw" = .ok ("$2b$12$pw" == pwd_context_hash "pw")
    ∧ verify_password "pw" "zzz"
      = .error (.unknownHashError "hash could not be identified") :=
  ⟨(verify_password_boolean_on_wellformed_digest "pw" "$2b$12$pw").1 (by decide),
   (verify_password_boolean_on_wellformed_digest "pw" "zzz").2 (by decide)⟩

/-- C9: the claim says a request with no bearer token resolves the
optional gate to `None`; as wired, `oauth2_scheme` keeps
`OAuth2PasswordBearer`'s default `auto_error=True`, so FastAPI raises
`401 Not authenticated` before `get_current_user_optional`'s body (whose
own docstring promises `None`) ever runs. -/
theorem optional_gate_errors_without_token
    (users : List User) (secret : String) (now : Nat) :
    get_current_user_optional users secret now .missing
      = .error ⟨401, "Not authenticated"⟩
    ∧ get_current_user_optional users secret now .missing ≠ .ok none := by
  exact ⟨rfl, fun h => Except.noConfusion h⟩

/-- C10: an update carrying an empty field subset returns the stored
task/category unchanged and leaves the stored state exactly as it
was — no write happens. -/
theorem empty_update_is_noop
    (tasks : List Task) (categories : List Category)
    (u tid cid : Nat) (tu : TaskUpdate) (cu : CategoryUpdate)
    (t : Task) (c : Category)
    (htu : tu.dump_empty = true) (hcu : cu.dump_empty = true)
    (ht : TaskRepository.get_by_user_and_id tasks u tid = some t)
    (hc : CategoryRepository.get_by_user_and_id categories u cid = some c) :
    TaskService.update_task tasks categories u tid tu = .ok (t, tasks)
    ∧ CategoryService.update_category categories u cid cu = .ok (c, categories) := by
  constructor
  · unfold TaskService.update_task
    rw [ht]
    simp [htu]
  · unfold CategoryService.update_category
    rw [hc]
    simp [hcu]

/-- C10 witness: empty updates on an existing task and category return
them unchanged together with the unchanged tables. -/
theorem empty_update_is_noop_witness :
    TaskService.update_task [⟨1, 0, "t", none, .TODO, .MEDIUM, none, none, 0⟩]
        [⟨1, 0, "Work", "ffffff", 0⟩] 0 1 TaskUpdate.unset
      = .ok (⟨1, 0, "t", none, .TODO, .MEDIUM, none, none, 0⟩,
             [⟨1, 0, "t", none, .TODO, .MEDIUM, none, none, 0⟩])
    ∧ CategoryService.update_category [⟨1, 0, "Work", "ffffff", 0⟩] 0 1
        CategoryUpdate.unset
      = .ok (⟨1, 0, "Work", "ffffff", 0⟩, [⟨1, 0, "Work", "ffffff", 0⟩]) :=
  empty_update_is_noop
    [⟨1, 0, "t", none, .TODO, .MEDIUM, none, none, 0⟩]
    [⟨1, 0, "Work", "ffffff", 0⟩] 0 1 1 TaskUpdate.unset CategoryUpdate.unset
    ⟨1, 0, "t", none, .TODO, .MEDIUM, none, none, 0⟩
    ⟨1, 0, "Work", "ffffff", 0⟩
    (by decide) (by decide) (by decide) (by decide)

end App
